import Mathlib

/-
  Shallow embedding of the exec_path_args subprocess launcher
  (src/src/exec_path_args.cxx, src/src/pipe_helper.cxx,
  src/src/syscall_helper.cxx and the public headers).

  OS interactions (pipe creation, fork, poll, waitid, kill, write, the
  ioctl/read drain of a pipe) are modelled by explicit oracle parameters:
  the integer return value of each OS call and, for the drain, the list of
  bytes the pipe delivers.  Machine strings are modelled as List Char,
  file descriptors and process handles as Int.
-/

deriving instance DecidableEq for Except

namespace ExecPathArgs

/-- Error taxonomy of the launcher.  The C++ code throws
`std::runtime_error` everywhere; the spec classifies the throws into
InvalidState (operation outside its valid lifecycle state / no owned
process), SyscallError (an OS call returned a negative result) and
fatal consistency failures.  `child_branch` marks the child-side
continuation after fork, which in the C++ never returns (it replaces
the process image or calls `std::_Exit`). -/
inductive err_t where
  | invalidState (msg : String)
  | syscallError (msg : String)
  | fatal (msg : String)
  | child_branch
deriving DecidableEq, Repr

/-- Returns true exactly when the result is an InvalidState failure. -/
def failsInvalidState {α : Type} : Except err_t α → Bool
  | .error (.invalidState _) => true
  | _ => false

/-- Sentinel for a closed / never-opened file descriptor
(src/include/exec_path_args/native_fd_t.hxx: `invalid_fd = -1`). -/
def invalid_fd : Int := -1

/-- Modelled from the spec: the process-handle header
(process_handle_t.hxx) is not present under src/; the spec says a
reserved sentinel value denotes no process owned.  We model the handle
as Int with sentinel -1 (the POSIX pid convention). -/
def invalid_process_handle : Int := -1

/-- One OS pipe: `out_fd` is fds[0] (read end), `in_fd` is fds[1]
(write end), as in src/include/exec_path_args/pipe_helper.hxx. -/
structure pipe_helper where
  out_fd : Int
  in_fd : Int
deriving DecidableEq, Repr

/-- Embeds `close_fd` (src/src/pipe_helper.cxx lines 33-57): when the
descriptor is not the sentinel, an OS close is issued (second component
true); whatever the OS close reports (`_os_close_ok`), the failure is
only printed as a diagnostic and the descriptor is unconditionally set
to the sentinel.  When the descriptor is already the sentinel, nothing
happens.  The function is `noexcept` in the source: it never raises,
which the total return type reflects. -/
def close_fd (fd : Int) (_os_close_ok : Bool) : Int × Bool :=
  if fd ≠ invalid_fd then (invalid_fd, true) else (fd, false)

/-- Embeds `pipe_helper::close_out` (closes fds[0]). -/
def pipe_helper.close_out (p : pipe_helper) (os_close_ok : Bool) :
    pipe_helper × Bool :=
  let r := close_fd p.out_fd os_close_ok
  ({ p with out_fd := r.1 }, r.2)

/-- Embeds `pipe_helper::close_in` (closes fds[1]). -/
def pipe_helper.close_in (p : pipe_helper) (os_close_ok : Bool) :
    pipe_helper × Bool :=
  let r := close_fd p.in_fd os_close_ok
  ({ p with in_fd := r.1 }, r.2)

/-- Embeds `check_syscall_ret_val` (src/src/syscall_helper.cxx lines
32-44).  `errno_val` and `err_str` model the errno captured right after
the failing call and its `strerror` text. -/
def check_syscall_ret_val (file : String) (line : Nat) (syscall_ret : Int)
    (errno_val : Int) (err_str : String) : Except String Unit :=
  if syscall_ret < 0 then
    .error (file ++ ":" ++ toString line ++ ": syscall failed - return code " ++
      toString syscall_ret ++ ", errno " ++ toString errno_val ++ " ~ \"" ++
      err_str ++ "\"")
  else
    .ok ()

/-- Embeds the `syscall_helper` template
(src/src/include/impl/syscall_helper.hxx lines 35-40): checks the value
and passes it through unchanged on success. -/
def syscall_helper (file : String) (line : Nat) (syscall_ret : Int)
    (errno_val : Int) (err_str : String) : Except String Int :=
  match check_syscall_ret_val file line syscall_ret errno_val err_str with
  | .error e => .error e
  | .ok _ => .ok syscall_ret

/-- Lifecycle states (header, enum `state`; the source spells
`uninitialzied`). -/
inductive state where
  | uninitialzied
  | ready
  | running
  | finished
deriving DecidableEq, Repr

/-- Result of `update_and_get_state`: the state pair observed across
the call. -/
structure states where
  previous : state
  current : state
deriving DecidableEq, Repr

/-- The launcher's fields, as declared in
src/include/exec_path_args/exec_path_args.hxx.  Output buffers are byte
sequences (List Char); the consumed cursors are the `ssize_t`
`stdout_consumed_bytes` / `stderr_consumed_bytes` fields, which the
source only ever assigns buffer sizes, hence Nat. -/
structure exec_path_args where
  path : String
  args : List String
  time_spawned_ns : Int
  time_finished_ns : Int
  handle : Int
  stdin_pipe : pipe_helper
  stdout_pipe : pipe_helper
  stderr_pipe : pipe_helper
  current_state : state
  return_code : Int
  stdout_buffer : List Char
  stdout_consumed_bytes : Nat
  stderr_buffer : List Char
  stderr_consumed_bytes : Nat
deriving DecidableEq, Repr

/-- Embeds `manages_process()` (header line 49):
`handle != invalid_process_handle`. -/
def manages_process (p : exec_path_args) : Bool :=
  p.handle != invalid_process_handle

/-- Embeds the source of a move (move constructor, exec_path_args.cxx
lines 79-92): strings/vectors/pipes are moved-from (left empty /
invalid), the handle is exchanged for the sentinel and the state for
`uninitialzied`; the scalar timestamps, return code and consumed
counters are merely copied and keep their values in the source. -/
def moved_from_source (p : exec_path_args) : exec_path_args :=
  { p with
    path := "",
    args := [],
    handle := invalid_process_handle,
    stdin_pipe := ⟨invalid_fd, invalid_fd⟩,
    stdout_pipe := ⟨invalid_fd, invalid_fd⟩,
    stderr_pipe := ⟨invalid_fd, invalid_fd⟩,
    current_state := state.uninitialzied,
    stdout_buffer := [],
    stderr_buffer := [] }

/-- Embeds the move constructor: the destination receives every field
of the source; the source is left as `moved_from_source`. -/
def move_construct (p : exec_path_args) : exec_path_args × exec_path_args :=
  (p, moved_from_source p)

/-- Embeds move assignment for distinct objects (exec_path_args.cxx
lines 94-100): a temporary is move-constructed from `rhs` and swapped
into `lhs`; `lhs`'s previous state dies with the temporary (its
destructor kills a still-running process).  The result is the pair
(new destination value, new source value).  Self-assignment is guarded
by `this != &rhs` in the source and changes nothing. -/
def move_assign (_lhs rhs : exec_path_args) :
    exec_path_args × exec_path_args :=
  (rhs, moved_from_source rhs)

/-- Embeds `build_args_cstr` (exec_path_args.cxx lines 121-139): an
array of `args.size() + 2` C strings, entry 0 a copy of `path`, entries
1..n copies of the arguments in order, entry n+1 the null terminator
(modelled as `none`). -/
def build_args_cstr (path : String) (args : List String) :
    List (Option String) :=
  some path :: (args.map some ++ [none])

/-- Embeds `update_buffer` (exec_path_args.cxx lines 404-445): requires
an owned process and an open read end, then appends the bytes the pipe
currently holds (`new_bytes`, the ioctl FIONREAD amount which the
subsequent read delivers in full on the modelled success path). -/
def update_buffer (p : exec_path_args) (for_stdout : Bool)
    (new_bytes : List Char) : Except err_t exec_path_args :=
  if manages_process p then
    if (if for_stdout then p.stdout_pipe.out_fd else p.stderr_pipe.out_fd)
        = invalid_fd then
      .error (.invalidState
        "cannot read from given pipe - it is closed or not initialized!")
    else if for_stdout then
      .ok { p with stdout_buffer := p.stdout_buffer ++ new_bytes }
    else
      .ok { p with stderr_buffer := p.stderr_buffer ++ new_bytes }
  else
    .error (.invalidState
      "cannot update any buffer - process handle is invalid!")

/-- Embeds the file-local `get_buffer` helper (exec_path_args.cxx lines
266-277): given the buffer and the consumed cursor, returns the view
handed to the caller and the new cursor value (the source mutates
`consumed_bytes` by reference; both branches set it to the buffer
size).  In the `whole = false` branch the C++ builds the view
`(data + consumed, size - consumed)`; when `consumed > size` that view
is out of range (undefined behaviour) — the model truncates via
`List.drop`. -/
def get_buffer (buffer : List Char) (consumed_bytes : Nat) (whole : Bool) :
    List Char × Nat :=
  if whole then
    (buffer, buffer.length)
  else
    (buffer.drop consumed_bytes, buffer.length)

/-- Embeds `read_stdout` (exec_path_args.cxx lines 280-283). -/
def read_stdout (p : exec_path_args) (whole : Bool) (new_bytes : List Char) :
    Except err_t (List Char × exec_path_args) :=
  match update_buffer p true new_bytes with
  | .error e => .error e
  | .ok p1 =>
    let r := get_buffer p1.stdout_buffer p1.stdout_consumed_bytes whole
    .ok (r.1, { p1 with stdout_consumed_bytes := r.2 })

/-- Embeds `read_stderr` (exec_path_args.cxx lines 285-288). -/
def read_stderr (p : exec_path_args) (whole : Bool) (new_bytes : List Char) :
    Except err_t (List Char × exec_path_args) :=
  match update_buffer p false new_bytes with
  | .error e => .error e
  | .ok p1 =>
    let r := get_buffer p1.stderr_buffer p1.stderr_consumed_bytes whole
    .ok (r.1, { p1 with stderr_consumed_bytes := r.2 })

/-- Embeds `get_stdout` (exec_path_args.cxx lines 290-293): drains,
then `return std::move(stdout_buffer)` — the buffer is moved out
(left empty); the `stdout_consumed_bytes` cursor is not touched. -/
def get_stdout (p : exec_path_args) (new_bytes : List Char) :
    Except err_t (List Char × exec_path_args) :=
  match update_buffer p true new_bytes with
  | .error e => .error e
  | .ok p1 => .ok (p1.stdout_buffer, { p1 with stdout_buffer := [] })

/-- Embeds `get_stderr` (exec_path_args.cxx lines 295-298). -/
def get_stderr (p : exec_path_args) (new_bytes : List Char) :
    Except err_t (List Char × exec_path_args) :=
  match update_buffer p false new_bytes with
  | .error e => .error e
  | .ok p1 => .ok (p1.stderr_buffer, { p1 with stderr_buffer := [] })

/-- `si_code` values relevant to `waitid` with WEXITED. -/
inductive cld_code where
  | exited
  | killed
  | dumped
  | stopped
  | trapped
  | continued
deriving DecidableEq, Repr

/-- The `siginfo_t` fields `query_status` inspects. -/
structure siginfo where
  si_pid : Int
  si_code : cld_code
  si_status : Int
deriving DecidableEq, Repr

/-- Embeds `query_status` (exec_path_args.cxx lines 375-402).
`wait_for_finishing` selects blocking vs WNOHANG mode of the `waitid`
call; `waitid_ret` is its return value, `info` the `siginfo_t` the OS
fills in (`si_pid = 0` models WNOHANG finding no terminated child) and
`now` the monotonic-clock reading used for the finish timestamp. -/
def query_status (p : exec_path_args) (_wait_for_finishing : Bool)
    (waitid_ret : Int) (info : siginfo) (now : Int) :
    Except err_t exec_path_args :=
  if manages_process p then
    if p.current_state = state.running then
      if waitid_ret < 0 then
        .error (.syscallError "waitid failed")
      else if info.si_pid ≠ 0 ∧ (info.si_code = cld_code.exited ∨
          info.si_code = cld_code.killed ∨ info.si_code = cld_code.dumped) then
        if info.si_pid ≠ p.handle then
          .error (.fatal
            "waitid returned unexpected pid - different from the managed one!")
        else
          .ok { p with
            time_finished_ns := now,
            current_state := state.finished,
            return_code := info.si_status }
      else
        .ok p
    else if p.current_state = state.finished then
      .ok p
    else
      .error (.fatal "cannot wait for pid - process is not running or finished!")
  else
    .error (.invalidState "cannot query status - process handle is invalid!")

/-- Embeds `do_kill` (exec_path_args.cxx lines 300-305): only when a
process is owned and the state is running, `kill(handle, SIGKILL)` is
issued (return value `kill_ret`) and the status is reaped blockingly;
otherwise nothing at all happens. -/
def do_kill (p : exec_path_args) (kill_ret waitid_ret : Int)
    (info : siginfo) (now : Int) : Except err_t exec_path_args :=
  if manages_process p ∧ p.current_state = state.running then
    if kill_ret < 0 then
      .error (.syscallError "kill failed")
    else
      query_status p true waitid_ret info now
  else
    .ok p

/-- Embeds the partial-write loop in `send_to_stdin` (exec_path_args.cxx
lines 241-250).  `write_results` is the oracle of successive `write`
return values; each non-negative result advances `written`, a negative
one fails through the syscall checker, and the loop ends as soon as
`written` reaches `data_size`.  The returned Nat counts loop
iterations (write calls issued).  An exhausted oracle models a write
that would block forever. -/
def write_loop (written data_size : Int) : List Int → Except err_t Nat
  | [] =>
    if written < data_size then
      .error (.fatal "write oracle exhausted - the call would keep blocking")
    else
      .ok 0
  | r :: rs =>
    if written < data_size then
      if r < 0 then
        .error (.syscallError "write failed")
      else
        match write_loop (written + r) data_size rs with
        | .error e => .error e
        | .ok n => .ok (n + 1)
    else
      .ok 0

/-- Embeds `send_to_stdin` (exec_path_args.cxx lines 229-251): validates
handle, open stdin write end and running state (in that order), then
writes all bytes looping over partial writes.  The source mutates no
field of the launcher, so the successful result carries the unchanged
state together with the number of write calls issued. -/
def send_to_stdin (p : exec_path_args) (data : List Char)
    (write_results : List Int) : Except err_t (exec_path_args × Nat) :=
  if ¬ manages_process p then
    .error (.invalidState
      "cannot write to inferior stdin - process handle is invalid!")
  else if p.stdin_pipe.in_fd = invalid_fd then
    .error (.invalidState
      "cannot write to inferior stdin - stdin pipe is closed or not initialized!")
  else if p.current_state ≠ state.running then
    .error (.invalidState
      "cannot write to inferior stdin - process is not running!")
  else
    match write_loop 0 (Int.ofNat data.length) write_results with
    | .error e => .error e
    | .ok n => .ok (p, n)

/-- Embeds `close_stdin` (exec_path_args.cxx lines 253-263). -/
def close_stdin (p : exec_path_args) (os_close_ok : Bool) :
    Except err_t exec_path_args :=
  if ¬ manages_process p then
    .error (.invalidState
      "cannot close inferior stdin - process handle is invalid!")
  else if p.current_state ≠ state.running ∨ p.stdin_pipe.in_fd = invalid_fd then
    .error (.invalidState
      "cannot close inferior stdin - process is not running or invalid fd!")
  else
    .ok { p with stdin_pipe := (p.stdin_pipe.close_in os_close_ok).1 }

/-- Embeds `time_running_ms` (exec_path_args.cxx lines 307-323) up to
the unit conversion: the source divides the nanosecond difference by
1e6 into a double; the model returns the nanosecond difference. -/
def time_running_ms (p : exec_path_args) (now : Int) : Except err_t Int :=
  if ¬ manages_process p then
    .error (.invalidState "cannot measure time - process handle is invalid!")
  else if p.current_state = state.running then
    .ok (now - p.time_spawned_ns)
  else if p.current_state = state.finished then
    .ok (p.time_finished_ns - p.time_spawned_ns)
  else
    .error (.invalidState
      "cannot get running time - process is not running or finished!")

/-- Embeds `get_return_code` (exec_path_args.cxx lines 325-334). -/
def get_return_code (p : exec_path_args) : Except err_t Int :=
  if ¬ manages_process p then
    .error (.invalidState
      "cannot obtain return code - process handle is invalid!")
  else if p.current_state ≠ state.finished then
    .error (.invalidState "cannot obtain return code - process is not finished!")
  else
    .ok p.return_code

/-- OS responses consumed by the ready branch of
`update_and_get_state`: the three `pipe()` return values, the
descriptor pairs they produce, the `fork()` return value and the
monotonic-clock reading for the spawn timestamp. -/
structure spawn_env where
  pipe_ret1 : Int
  pipe_ret2 : Int
  pipe_ret3 : Int
  stdin_fds : Int × Int
  stdout_fds : Int × Int
  stderr_fds : Int × Int
  fork_ret : Int
  now_ns : Int
deriving DecidableEq, Repr

/-- OS responses consumed by the running branch of
`update_and_get_state`: the `pidfd_open` and `poll` return values and
the reap data handed to `query_status`. -/
structure poll_env where
  pidfd_ret : Int
  poll_ret : Int
  waitid_ret : Int
  info : siginfo
  now_ns : Int
deriving DecidableEq, Repr

/-- The parent-side state right after the ready branch spawned the
child (exec_path_args.cxx lines 148-170): the three pipes are created,
the child-side ends (stdin read end, stdout/stderr write ends) are
closed, the spawn timestamp and the child pid are recorded and the
state becomes running. -/
def spawned (p : exec_path_args) (sp : spawn_env) : exec_path_args :=
  let p1 := { p with
    stdin_pipe := ⟨sp.stdin_fds.1, sp.stdin_fds.2⟩,
    stdout_pipe := ⟨sp.stdout_fds.1, sp.stdout_fds.2⟩,
    stderr_pipe := ⟨sp.stderr_fds.1, sp.stderr_fds.2⟩ }
  let p2 := { p1 with
    stdin_pipe := (p1.stdin_pipe.close_out true).1,
    stdout_pipe := (p1.stdout_pipe.close_in true).1,
    stderr_pipe := (p1.stderr_pipe.close_in true).1 }
  { p2 with
    time_spawned_ns := sp.now_ns,
    handle := sp.fork_ret,
    current_state := state.running }

/-- Embeds the running branch of `update_and_get_state`
(exec_path_args.cxx lines 180-208): handle check, `pidfd_open`, `poll`
bounded by the timeout, a non-blocking reap when the watcher signals
readiness, and the fatal check that an indefinite wait produced
termination. -/
def running_step (p : exec_path_args) (timeout_ms : Int) (env : poll_env) :
    Except err_t exec_path_args :=
  if ¬ manages_process p then
    .error (.invalidState "cannot update state - process handle is invalid!")
  else if env.pidfd_ret < 0 then
    .error (.syscallError "pidfd_open failed")
  else if env.poll_ret < 0 then
    .error (.syscallError "poll failed")
  else
    match (if env.poll_ret = 1 then
        query_status p false env.waitid_ret env.info env.now_ns
      else .ok p) with
    | .error e => .error e
    | .ok p1 =>
      if timeout_ms < 0 ∧ p1.current_state ≠ state.finished then
        .error (.fatal
          "failed to wait for child process to finish without any timeout!")
      else
        .ok p1

/-- Embeds `update_and_get_state` (exec_path_args.cxx lines 142-227).
The ready branch spawns and, only when the timeout is non-zero,
recursively continues into the running branch within the same call
(source lines 172-176); the running branch polls and possibly reaps;
the finished branch only validates the handle; the uninitialized
branch always fails. -/
def update_and_get_state (p : exec_path_args) (timeout_ms : Int)
    (sp : spawn_env) (po : poll_env) : Except err_t (states × exec_path_args) :=
  let previous := p.current_state
  match p.current_state with
  | state.ready =>
    if sp.pipe_ret1 < 0 ∨ sp.pipe_ret2 < 0 ∨ sp.pipe_ret3 < 0 then
      .error (.syscallError "pipe failed")
    else if sp.fork_ret < 0 then
      .error (.syscallError "fork failed")
    else if sp.fork_ret = 0 then
      .error .child_branch
    else
      let p2 := spawned p sp
      if timeout_ms ≠ 0 then
        match running_step p2 timeout_ms po with
        | .error e => .error e
        | .ok pf => .ok ({ previous := previous, current := pf.current_state }, pf)
      else
        .ok ({ previous := previous, current := p2.current_state }, p2)
  | state.running =>
    match running_step p timeout_ms po with
    | .error e => .error e
    | .ok pf => .ok ({ previous := previous, current := pf.current_state }, pf)
  | state.finished =>
    if ¬ manages_process p then
      .error (.invalidState "cannot update state - process handle is invalid!")
    else
      .ok ({ previous := previous, current := previous }, p)
  | state.uninitialzied =>
    .error (.invalidState "cannot update state - process was not initialized!")

/-- Iterates `read_stdout(false)` over a sequence of drain deliveries
(`ns`: the bytes each successive drain finds in the pipe), collecting
the concatenation of the returned increments. -/
def read_stdout_increments (p : exec_path_args) :
    List (List Char) → Except err_t (List Char × exec_path_args)
  | [] => .ok ([], p)
  | n :: ns =>
    match read_stdout p false n with
    | .error e => .error e
    | .ok (out, p1) =>
      match read_stdout_increments p1 ns with
      | .error e => .error e
      | .ok (rest, pf) => .ok (out ++ rest, pf)

/-- A launcher owning a running process with open stdout/stderr read
ends and an open stdin write end, used to instantiate theorems. -/
def sample_running : exec_path_args :=
  { path := "/bin/cat",
    args := [],
    time_spawned_ns := 100,
    time_finished_ns := 0,
    handle := 42,
    stdin_pipe := ⟨invalid_fd, 4⟩,
    stdout_pipe := ⟨5, invalid_fd⟩,
    stderr_pipe := ⟨7, invalid_fd⟩,
    current_state := state.running,
    return_code := 0,
    stdout_buffer := [],
    stdout_consumed_bytes := 0,
    stderr_buffer := [],
    stderr_consumed_bytes := 0 }

/-- A freshly constructed launcher in ready state (command bound, no
process yet). -/
def sample_ready : exec_path_args :=
  { path := "/bin/true",
    args := ["-v"],
    time_spawned_ns := 0,
    time_finished_ns := 0,
    handle := invalid_process_handle,
    stdin_pipe := ⟨invalid_fd, invalid_fd⟩,
    stdout_pipe := ⟨invalid_fd, invalid_fd⟩,
    stderr_pipe := ⟨invalid_fd, invalid_fd⟩,
    current_state := state.ready,
    return_code := 0,
    stdout_buffer := [],
    stdout_consumed_bytes := 0,
    stderr_buffer := [],
    stderr_consumed_bytes := 0 }

/-- A spawn-environment sample: all OS calls succeed, the child pid
is 43. -/
def sample_spawn_env : spawn_env :=
  { pipe_ret1 := 0, pipe_ret2 := 0, pipe_ret3 := 0,
    stdin_fds := (3, 4), stdout_fds := (5, 6), stderr_fds := (7, 8),
    fork_ret := 43, now_ns := 1000 }

/-- A poll-environment sample (unused by the zero-timeout ready
branch). -/
def sample_poll_env : poll_env :=
  { pidfd_ret := 9, poll_ret := 0, waitid_ret := 0,
    info := ⟨0, cld_code.exited, 0⟩, now_ns := 2000 }

/-- The launcher of `sample_running` after its stdout buffer captured
"abc" and a `read_stdout(false)` consumed it (cursor 3): the concrete
state on which `get_stdout` is then evaluated. -/
def buffered_launcher : exec_path_args :=
  { sample_running with
    stdout_buffer := ['a', 'b', 'c'],
    stdout_consumed_bytes := 3 }

/-- The per-stream data-model invariant stated by the spec:
the consumed cursor never exceeds the buffer length. -/
def cursor_invariant (p : exec_path_args) : Prop :=
  p.stdout_consumed_bytes ≤ p.stdout_buffer.length ∧
  p.stderr_consumed_bytes ≤ p.stderr_buffer.length

/-- The launcher state `get_stdout` leaves behind when applied to
`buffered_launcher` with nothing left in the pipe: the buffer was moved
out (empty) while the consumed cursor kept its old value 3. -/
def after_get : exec_path_args :=
  { buffered_launcher with stdout_buffer := [] }

/-- C6: for every path and argument list of length n, the argv array
built for the exec has n + 2 entries: entry 0 is the path, entries
1..n are the arguments in order, entry n + 1 is the null terminator. -/
theorem build_args_cstr_layout (path : String) (args : List String) :
    (build_args_cstr path args).length = args.length + 2 ∧
    (build_args_cstr path args)[0]? = some (some path) ∧
    (∀ i : Nat, ∀ h : i < args.length,
      (build_args_cstr path args)[i + 1]? = some (some (args.get ⟨i, h⟩))) ∧
    (build_args_cstr path args)[args.length + 1]? = some none := by
  refine ⟨by simp [build_args_cstr], by simp [build_args_cstr], ?_, ?_⟩
  · intro i h
    simp only [build_args_cstr, List.getElem?_cons_succ]
    rw [List.getElem?_append, if_pos (by simpa using h)]
    simp [List.getElem?_eq_getElem h]
  · simp only [build_args_cstr, List.getElem?_cons_succ]
    rw [List.getElem?_append, if_neg (by simp)]
    simp

/-- Witness for C6 at path "/bin/echo", args ["a", "b"], index 1. -/
theorem build_args_cstr_layout_witness :
    (build_args_cstr "/bin/echo" ["a", "b"]).length = 4 ∧
    (build_args_cstr "/bin/echo" ["a", "b"])[0]? = some (some "/bin/echo") ∧
    (build_args_cstr "/bin/echo" ["a", "b"])[2]? = some (some "b") ∧
    (build_args_cstr "/bin/echo" ["a", "b"])[3]? = some none := by
  have h := build_args_cstr_layout "/bin/echo" ["a", "b"]
  refine ⟨h.1, h.2.1, ?_, h.2.2.2⟩
  have h2 := h.2.2.1 1 (by decide)
  simpa using h2

/-- C7: a non-negative OS result passes through the syscall checker
unchanged; a negative one fails with a description combining the call
site (file and line) with the captured errno and its human-readable
cause. -/
theorem check_syscall_ret_val_spec (file : String) (line : Nat)
    (r errno_val : Int) (err_str : String) :
    (0 ≤ r → syscall_helper file line r errno_val err_str = .ok r) ∧
    (r < 0 → syscall_helper file line r errno_val err_str =
      .error (file ++ ":" ++ toString line ++ ": syscall failed - return code " ++
        toString r ++ ", errno " ++ toString errno_val ++ " ~ \"" ++
        err_str ++ "\"")) := by
  constructor
  · intro h
    simp [syscall_helper, check_syscall_ret_val, not_lt.mpr h]
  · intro h
    simp [syscall_helper, check_syscall_ret_val, h]

/-- Witness for C7 at results 5 and -1. -/
theorem check_syscall_ret_val_spec_witness :
    syscall_helper "f.c" 7 5 0 "Success" = .ok 5 ∧
    syscall_helper "f.c" 7 (-1) 2 "No such file or directory" =
      .error "f.c:7: syscall failed - return code -1, errno 2 ~ \"No such file or directory\"" := by
  constructor
  · exact (check_syscall_ret_val_spec "f.c" 7 5 0 "Success").1 (by decide)
  · rw [(check_syscall_ret_val_spec "f.c" 7 (-1) 2
      "No such file or directory").2 (by decide)]
    decide

/-- C8: for each pipe end, closing marks the descriptor with the
invalid sentinel on the caller's side regardless of the OS close
outcome, leaves the other end untouched, and a repeated close of the
already-closed end is a no-op that issues no OS close (and, the
functions being total, never raises). -/
theorem pipe_close_idempotent (p : pipe_helper) (b1 b2 b3 : Bool) :
    ((p.close_out b1).1.out_fd = invalid_fd ∧
     (p.close_out b1).1.in_fd = p.in_fd ∧
     (p.close_out b1).1.close_out b2 = ((p.close_out b1).1, false) ∧
     (p.close_out b1).1 = (p.close_out b3).1) ∧
    ((p.close_in b1).1.in_fd = invalid_fd ∧
     (p.close_in b1).1.out_fd = p.out_fd ∧
     (p.close_in b1).1.close_in b2 = ((p.close_in b1).1, false) ∧
     (p.close_in b1).1 = (p.close_in b3).1) := by
  constructor
  · by_cases h : p.out_fd = invalid_fd <;>
      simp [pipe_helper.close_out, close_fd, h]
  · by_cases h : p.in_fd = invalid_fd <;>
      simp [pipe_helper.close_in, close_fd, h]

/-- C9: on a running launcher with a valid handle and an open stdin
write end, sending empty data succeeds, issues zero write calls and
returns the launcher state unchanged. -/
theorem send_to_stdin_empty_noop (p : exec_path_args) (ws : List Int)
    (h1 : p.current_state = state.running)
    (h2 : manages_process p = true)
    (h3 : p.stdin_pipe.in_fd ≠ invalid_fd) :
    send_to_stdin p [] ws = .ok (p, 0) := by
  cases ws <;> simp [send_to_stdin, write_loop, h1, h2, h3]

/-- Witness for C9 at the sample running launcher. -/
theorem send_to_stdin_empty_noop_witness :
    send_to_stdin sample_running [] [] = .ok (sample_running, 0) :=
  send_to_stdin_empty_noop sample_running [] rfl rfl (by decide)

/-- C1 (code evaluation at the failing input): on `buffered_launcher`
(stdout captured "abc", cursor 3 after an incremental read, nothing
left in the pipe), `get_stdout` returns the whole buffer and empties
it, but the consumed cursor stays 3 instead of being reset to 0; a
subsequent `read_stdout(false)` that drains two new bytes "xy" then
returns nothing — the bytes captured after the transfer are lost to
the incremental reader (in the C++ the view is even out of range). -/
theorem get_stdout_leaves_cursor_stale :
    (get_stdout buffered_launcher []).map
        (fun r => (r.1, r.2.stdout_buffer, r.2.stdout_consumed_bytes)) =
      .ok (['a', 'b', 'c'], [], 3) ∧
    ((get_stdout buffered_launcher []).bind
        (fun r => (read_stdout r.2 false ['x', 'y']).map Prod.fst)) =
      .ok [] := by
  decide

/-- C2 (code evaluation at the failing input): `get_stdout` on
`buffered_launcher` produces a state whose stdout cursor (3) exceeds
its stdout buffer length (0), violating the cursor-at-most-length
invariant that every public operation is claimed to preserve. -/
theorem get_stdout_violates_cursor_invariant :
    get_stdout buffered_launcher [] = .ok (['a', 'b', 'c'], after_get) ∧
    ¬ cursor_invariant after_get := by
  refine ⟨by decide, ?_⟩
  intro h
  exact absurd h.1 (by decide)

/-- C4: moving from a launcher (construction, or assignment between
distinct objects) transfers all state to the destination and leaves
the source with no handle and uninitialized lifecycle state; every
state-dependent operation on the source fails with InvalidState, while
do_kill on the source is a safe no-op. -/
theorem move_resets_source_invalid_state (p : exec_path_args) :
    move_construct p = (p, moved_from_source p) ∧
    (∀ q : exec_path_args, move_assign q p = (p, moved_from_source p)) ∧
    manages_process (moved_from_source p) = false ∧
    (moved_from_source p).current_state = state.uninitialzied ∧
    (∀ t sp po, failsInvalidState
      (update_and_get_state (moved_from_source p) t sp po) = true) ∧
    (∀ data ws, failsInvalidState
      (send_to_stdin (moved_from_source p) data ws) = true) ∧
    (∀ b, failsInvalidState (close_stdin (moved_from_source p) b) = true) ∧
    (∀ w nb, failsInvalidState (read_stdout (moved_from_source p) w nb) = true) ∧
    (∀ w nb, failsInvalidState (read_stderr (moved_from_source p) w nb) = true) ∧
    (∀ nb, failsInvalidState (get_stdout (moved_from_source p) nb) = true) ∧
    (∀ nb, failsInvalidState (get_stderr (moved_from_source p) nb) = true) ∧
    (∀ now, failsInvalidState (time_running_ms (moved_from_source p) now) = true) ∧
    failsInvalidState (get_return_code (moved_from_source p)) = true ∧
    (∀ kr wr info now,
      do_kill (moved_from_source p) kr wr info now = .ok (moved_from_source p)) := by
  have hm : manages_process (moved_from_source p) = false := by
    simp [manages_process, moved_from_source]
  refine ⟨rfl, fun q => rfl, hm, rfl, ?_, ?_, ?_, ?_, ?_, ?_, ?_, ?_, ?_, ?_⟩
  · intro t sp po
    simp [update_and_get_state, moved_from_source, failsInvalidState]
  · intro data ws
    simp [send_to_stdin, hm, failsInvalidState]
  · intro b
    simp [close_stdin, hm, failsInvalidState]
  · intro w nb
    simp [read_stdout, update_buffer, hm, failsInvalidState]
  · intro w nb
    simp [read_stderr, update_buffer, hm, failsInvalidState]
  · intro nb
    simp [get_stdout, update_buffer, hm, failsInvalidState]
  · intro nb
    simp [get_stderr, update_buffer, hm, failsInvalidState]
  · intro now
    simp [time_running_ms, hm, failsInvalidState]
  · simp [get_return_code, hm, failsInvalidState]
  · intro kr wr info now
    simp [do_kill, hm]

/-- C5: do_kill sends SIGKILL and performs a blocking reap
(transitioning to finished) exactly when a process is owned and the
state is running; for every other launcher it is a no-op that succeeds
without touching anything.  The well-behaved-OS hypotheses say the kill
and waitid calls succeed and the blocking reap reports the owned pid
as killed. -/
theorem do_kill_exactly_when_running (p : exec_path_args)
    (kr wr : Int) (info : siginfo) (now : Int) :
    ((manages_process p = true ∧ p.current_state = state.running ∧
      0 ≤ kr ∧ 0 ≤ wr ∧ info.si_pid = p.handle ∧ info.si_pid ≠ 0 ∧
      info.si_code = cld_code.killed) →
      do_kill p kr wr info now = .ok { p with
        time_finished_ns := now,
        current_state := state.finished,
        return_code := info.si_status }) ∧
    ((manages_process p = false ∨ p.current_state ≠ state.running) →
      do_kill p kr wr info now = .ok p) := by
  constructor
  · rintro ⟨h1, h2, h3, h4, h5, h6, h7⟩
    have h8 : p.handle ≠ 0 := by rw [← h5]; exact h6
    simp [do_kill, query_status, h1, h2, not_lt.mpr h3, not_lt.mpr h4,
      h5, h7, h8]
  · rintro (h | h) <;> simp [do_kill, h]

/-- Witness for C5: the running sample gets killed and reaped to
finished with the signal number as return status; the ready sample is
left untouched. -/
theorem do_kill_exactly_when_running_witness :
    do_kill sample_running 0 0 ⟨42, cld_code.killed, 9⟩ 500 =
      .ok { sample_running with
        time_finished_ns := 500,
        current_state := state.finished,
        return_code := 9 } ∧
    do_kill sample_ready 0 0 ⟨42, cld_code.killed, 9⟩ 500 = .ok sample_ready := by
  constructor
  · exact (do_kill_exactly_when_running sample_running 0 0
      ⟨42, cld_code.killed, 9⟩ 500).1
      ⟨by decide, rfl, by decide, by decide, by decide, by decide, rfl⟩
  · exact (do_kill_exactly_when_running sample_ready 0 0
      ⟨42, cld_code.killed, 9⟩ 500).2 (Or.inl (by decide))

/-- C10: a single update_and_get_state(0) on a ready launcher (with
pipe creation and fork succeeding in the parent) returns previous =
ready, current = running, and leaves the launcher running: with a zero
timeout the call does not continue into the running-state handling, so
it can never observe finished within the same call. -/
theorem update_ready_zero_timeout (p : exec_path_args) (sp : spawn_env)
    (po : poll_env)
    (h : p.current_state = state.ready)
    (h1 : 0 ≤ sp.pipe_ret1) (h2 : 0 ≤ sp.pipe_ret2) (h3 : 0 ≤ sp.pipe_ret3)
    (h4 : 0 < sp.fork_ret) :
    update_and_get_state p 0 sp po =
      .ok ({ previous := state.ready, current := state.running }, spawned p sp) ∧
    (spawned p sp).current_state = state.running := by
  refine ⟨?_, rfl⟩
  have hf : sp.fork_ret ≠ 0 := by omega
  simp [update_and_get_state, h, not_lt.mpr h1, not_lt.mpr h2, not_lt.mpr h3,
    not_lt.mpr (le_of_lt h4), hf, spawned]

/-- Witness for C10 at the ready sample and an all-success spawn
environment. -/
theorem update_ready_zero_timeout_witness :
    update_and_get_state sample_ready 0 sample_spawn_env sample_poll_env =
      .ok ({ previous := state.ready, current := state.running },
        spawned sample_ready sample_spawn_env) ∧
    (spawned sample_ready sample_spawn_env).current_state = state.running :=
  update_ready_zero_timeout sample_ready sample_spawn_env sample_poll_env
    rfl (by decide) (by decide) (by decide) (by decide)

/-- Helper: a successful incremental read appends the drained bytes,
returns the slice past the cursor and moves the cursor to the end. -/
theorem read_stdout_false_ok (p : exec_path_args) (n : List Char)
    (h1 : manages_process p = true)
    (h2 : p.stdout_pipe.out_fd ≠ invalid_fd) :
    read_stdout p false n =
      .ok ((p.stdout_buffer ++ n).drop p.stdout_consumed_bytes,
        { p with stdout_buffer := p.stdout_buffer ++ n,
                 stdout_consumed_bytes := (p.stdout_buffer ++ n).length }) := by
  simp [read_stdout, update_buffer, get_buffer, h1, h2]

/-- Helper: a successful whole read appends the drained bytes, returns
the whole buffer and moves the cursor to the end. -/
theorem read_stdout_true_ok (p : exec_path_args) (n : List Char)
    (h1 : manages_process p = true)
    (h2 : p.stdout_pipe.out_fd ≠ invalid_fd) :
    read_stdout p true n =
      .ok (p.stdout_buffer ++ n,
        { p with stdout_buffer := p.stdout_buffer ++ n,
                 stdout_consumed_bytes := (p.stdout_buffer ++ n).length }) := by
  simp [read_stdout, update_buffer, get_buffer, h1, h2]

/-- Helper: iterating read_stdout(false) from a fully-consumed buffer
returns exactly the concatenation of the drained chunks and ends with
a fully-consumed buffer extended by those chunks. -/
theorem read_increments_aux (ns : List (List Char)) :
    ∀ p : exec_path_args,
      manages_process p = true →
      p.stdout_pipe.out_fd ≠ invalid_fd →
      p.stdout_consumed_bytes = p.stdout_buffer.length →
      ∃ pf, read_stdout_increments p ns = .ok (ns.flatten, pf) ∧
        pf.stdout_buffer = p.stdout_buffer ++ ns.flatten ∧
        pf.stdout_consumed_bytes = pf.stdout_buffer.length ∧
        pf.handle = p.handle ∧
        pf.stdout_pipe = p.stdout_pipe := by
  induction ns with
  | nil =>
    intro p h1 h2 h3
    exact ⟨p, rfl, by simp, by simp [h3], rfl, rfl⟩
  | cons n ns ih =>
    intro p h1 h2 h3
    obtain ⟨pf, he, hb, hc, hh, hp⟩ := ih
      { p with stdout_buffer := p.stdout_buffer ++ n,
               stdout_consumed_bytes := (p.stdout_buffer ++ n).length }
      (by simpa [manages_process] using h1) h2 rfl
    refine ⟨pf, ?_, ?_, hc, hh, hp⟩
    · simp only [read_stdout_increments, read_stdout_false_ok p n h1 h2, he]
      rw [h3, List.drop_left]
      simp
    · rw [hb]
      simp

/-- C3: starting from a launcher owning a process whose stdout has not
yet been read (empty buffer, cursor 0), the concatenation of all
successive read_stdout(false) increments over any sequence of drains
equals the result of a final read_stdout(true): no byte is duplicated
and none is dropped. -/
theorem read_stdout_increments_concat (p : exec_path_args)
    (ns : List (List Char))
    (h1 : manages_process p = true)
    (h2 : p.stdout_pipe.out_fd ≠ invalid_fd)
    (h3 : p.stdout_buffer = [])
    (h4 : p.stdout_consumed_bytes = 0) :
    ∃ pf, read_stdout_increments p ns = .ok (ns.flatten, pf) ∧
      (read_stdout pf true []).map Prod.fst = .ok ns.flatten := by
  obtain ⟨pf, he, hb, hc, hh, hp⟩ :=
    read_increments_aux ns p h1 h2 (by simp [h3, h4])
  refine ⟨pf, he, ?_⟩
  rw [read_stdout_true_ok pf []
    (by simpa [manages_process, hh] using h1) (by rw [hp]; exact h2)]
  simp [hb, h3, Except.map]

/-- Witness for C3 at the fresh running sample with two successive
drains delivering "a" and "bc". -/
theorem read_stdout_increments_concat_witness :
    ∃ pf, read_stdout_increments sample_running
        ([['a'], ['b', 'c']] : List (List Char)) =
        .ok (([['a'], ['b', 'c']] : List (List Char)).flatten, pf) ∧
      (read_stdout pf true []).map Prod.fst =
        .ok (([['a'], ['b', 'c']] : List (List Char)).flatten) :=
  read_stdout_increments_concat sample_running [['a'], ['b', 'c']]
    (by decide) (by decide) rfl rfl

end ExecPathArgs
